import Mathlib

/-!
Verification of the CheckoutChamp auth-harvest server (`api_server.js`).

The JavaScript source is shallowly embedded: JS strings become Lean
`String` or `List Char`, nullable/undefined values become `Option`, the
Playwright browser is abstracted as an environment record fixing the
outcome of every browser interaction, and the harvest pipeline
`getCheckoutChampAuth` becomes a pure function from that environment to
an `Except` result paired with a trace of browser events.
-/

/- ## Character and string utilities -/

/-- The single-quote character, a JS string delimiter. -/
def quoteSingle : Char := Char.ofNat 39

/-- The double-quote character. -/
def quoteDouble : Char := Char.ofNat 34

/-- Opening brace character. -/
def braceOpen : Char := Char.ofNat 123

/-- Closing brace character. -/
def braceClose : Char := Char.ofNat 125

/-- Opening parenthesis character. -/
def parenOpen : Char := Char.ofNat 40

/-- Closing parenthesis character. -/
def parenClose : Char := Char.ofNat 41

/-- Colon character. -/
def colonChar : Char := Char.ofNat 58

/-- Whitespace class of the JS regexes (space, tab, LF, CR, FF, VT; the
full JS class also has some Unicode spaces, irrelevant to the pages and
claims modelled here). -/
def isJsWs (c : Char) : Bool :=
  c == ' ' || c == Char.ofNat 9 || c == Char.ofNat 10 || c == Char.ofNat 13 ||
  c == Char.ofNat 12 || c == Char.ofNat 11

/-- A JS quote character, matching the regex class of the two quote kinds. -/
def isQuote (c : Char) : Bool := c == quoteSingle || c == quoteDouble

/-- Test `listStartsWith hay needle`: `needle` is a leading piece of `hay`. -/
def listStartsWith : List Char → List Char → Bool
  | _, [] => true
  | [], _ :: _ => false
  | c :: t, p :: ps => c == p && listStartsWith t ps

/-- Test that `needle` occurs contiguously inside the second argument. -/
def listHasSub (needle : List Char) : List Char → Bool
  | [] => listStartsWith [] needle
  | c :: t => listStartsWith (c :: t) needle || listHasSub needle t

/-- JS `String.prototype.includes`. -/
def strIncludes (hay sub : String) : Bool := listHasSub sub.toList hay.toList

/-- Consume an exact literal (first argument) from the front of the input
(second argument); `some rest` on success. -/
def dropLit : List Char → List Char → Option (List Char)
  | [], rest => some rest
  | _ :: _, [] => none
  | p :: ps, c :: t => if c == p then dropLit ps t else none

/-- Consume one optional quote character: the regex piece `[\x27"]?`.
When the head is a quote the regex engine must consume it, since every
continuation of these patterns begins with a non-quote literal. -/
def dropOptQuote : List Char → List Char
  | [] => []
  | c :: t => if isQuote c then t else c :: t

/- ## The three regexes of the embedded-data extraction (source lines
105-126).  Each `match…At` function attempts the pattern anchored at the
start of its input; `firstMatchAux` then tries every start position in
order, which is exactly the semantics of JS `String.prototype.match`
with a non-global regex (first match wins, capture group 1 returned).
Greedy pieces such as `[^\x7d]+` followed by the excluded character are
deterministic, so no general backtracking engine is needed. -/

/-- The `+` of a capture group: a capture is only produced when it is
non-empty. -/
def guardNonEmpty (v : List Char) : Option (List Char) :=
  if v.isEmpty then none else some v

/-- First match of an anchored matcher over all start positions, scanning
left to right. -/
def firstMatchAux (f : List Char → Option (List Char)) : List Char → Option (List Char)
  | [] => f []
  | c :: t =>
    match f (c :: t) with
    | some v => some v
    | none => firstMatchAux f t

/-- Anchored form of the regex `aDom\.construct\s*\(\s*\x7b([^\x7d]+)\x7d\s*\)`:
the object-construction signature; returns the brace-delimited capture. -/
def matchAdomAt (l : List Char) : Option (List Char) :=
  match dropLit (("aDom.construct").toList) l with
  | none => none
  | some r1 =>
    match r1.dropWhile isJsWs with
    | [] => none
    | c2 :: r2 =>
      if c2 == parenOpen then
        match r2.dropWhile isJsWs with
        | [] => none
        | c3 :: r3 =>
          if c3 == braceOpen then
            match r3.dropWhile (fun c => !(c == braceClose)) with
            | [] => none
            | _ :: r4 =>
              if (r3.takeWhile (fun c => !(c == braceClose))).isEmpty then none
              else
                match r4.dropWhile isJsWs with
                | [] => none
                | c5 :: _ =>
                  if c5 == parenClose then
                    some (r3.takeWhile (fun c => !(c == braceClose)))
                  else none
          else none
      else none

/-- Matches the shared prefix `[\x27"]?KEY[\x27"]?\s*:\s*` of the two
key/value regexes and returns the remaining input. -/
def matchKeyColon (key : List Char) (l : List Char) : Option (List Char) :=
  match dropLit key (dropOptQuote l) with
  | none => none
  | some r1 =>
    match (dropOptQuote r1).dropWhile isJsWs with
    | [] => none
    | c2 :: r2 =>
      if c2 == colonChar then some (r2.dropWhile isJsWs) else none

/-- Anchored form of `[\x27"]?csrfToken[\x27"]?\s*:\s*[\x27"]([^\x27"]+)[\x27"]`:
returns the quoted, non-empty capture. -/
def matchCsrfAt (l : List Char) : Option (List Char) :=
  match matchKeyColon (("csrfToken").toList) l with
  | none => none
  | some r =>
    match r with
    | [] => none
    | q :: r1 =>
      if isQuote q then
        match r1.dropWhile (fun c => !(isQuote c)) with
        | [] => none
        | _ :: _ => guardNonEmpty (r1.takeWhile (fun c => !(isQuote c)))
      else none

/-- Anchored form of `[\x27"]?currentCompanyId[\x27"]?\s*:\s*[\x27"](\d+)[\x27"]`:
returns the quoted, non-empty digit capture. -/
def matchCompanyAt (l : List Char) : Option (List Char) :=
  match matchKeyColon (("currentCompanyId").toList) l with
  | none => none
  | some r =>
    match r with
    | [] => none
    | q :: r1 =>
      if isQuote q then
        match r1.dropWhile Char.isDigit with
        | [] => none
        | c :: _ =>
          if isQuote c then guardNonEmpty (r1.takeWhile Char.isDigit) else none
      else none

/-- The `text.match(adomRegex)` capture 1: first object-construction block. -/
def adomMatch (text : List Char) : Option (List Char) := firstMatchAux matchAdomAt text

/-- The `configStr.match(csrfRegex)` capture 1. -/
def csrfCapture (configStr : List Char) : Option (List Char) :=
  firstMatchAux matchCsrfAt configStr

/-- The `configStr.match(companyRegex)` capture 1. -/
def companyCapture (configStr : List Char) : Option (List Char) :=
  firstMatchAux matchCompanyAt configStr

/- ## Embedded-data extraction loop (source lines 105-126) -/

/-- Result of `page.evaluate`: the two optionally extracted values. -/
structure AuthData where
  csrf : Option (List Char)
  companyId : Option (List Char)
deriving DecidableEq

/-- JS falsiness of a nullable string: `null`/`undefined` or `""`. -/
def jsFalsyOpt : Option (List Char) → Bool
  | none => true
  | some v => v.isEmpty

/-- The JS guard `if (match && !current) current = match[1]`: assign the
found value only when one was found and the current one is still falsy. -/
def jsAssignIfFalsy (current found : Option (List Char)) : Option (List Char) :=
  match found with
  | some v => if jsFalsyOpt current then some v else current
  | none => current

/-- The `for (const script of scripts)` loop of the in-page extraction:
per block matching the object-construction signature, each of the two
values is assigned from its key regex under the falsiness guard. -/
def extractLoop : List (List Char) → Option (List Char) → Option (List Char) → AuthData
  | [], csrf, companyId => { csrf := csrf, companyId := companyId }
  | text :: rest, csrf, companyId =>
    match adomMatch text with
    | none => extractLoop rest csrf companyId
    | some configStr =>
      extractLoop rest
        (jsAssignIfFalsy csrf (csrfCapture configStr))
        (jsAssignIfFalsy companyId (companyCapture configStr))

/-- Whole-page extraction: both accumulators start as `null`. -/
def extractAuthData (scripts : List (List Char)) : AuthData :=
  extractLoop scripts none none

/-- The csrf value of one script block: its first object-construction
capture, if any, scanned for the csrf pattern. -/
def scriptCsrf (text : List Char) : Option (List Char) :=
  (adomMatch text).bind csrfCapture

/-- The company-id value of one script block. -/
def scriptCompany (text : List Char) : Option (List Char) :=
  (adomMatch text).bind companyCapture

/-- First-found csrf value over the scripts in scan order. -/
def firstCsrf (scripts : List (List Char)) : Option (List Char) :=
  scripts.findSome? scriptCsrf

/-- First-found company-id value over the scripts in scan order. -/
def firstCompany (scripts : List (List Char)) : Option (List Char) :=
  scripts.findSome? scriptCompany

/- ## Data model of the response bundle (source lines 130-158) -/

/-- One browser cookie; the source reads only `name` and `value` and
passes whole cookie objects through in `all_cookies`. -/
structure Cookie where
  name : String
  value : String
deriving DecidableEq

/-- JS `o?.value || null` for an optional cookie lookup: absent cookie or
empty value becomes `null`. -/
def jsOrNullStr : Option String → Option String
  | none => none
  | some s => if s.isEmpty then none else some s

/-- JS `x || d` for an extracted optional string against a default. -/
def jsOrDefaultLC (o : Option (List Char)) (d : String) : String :=
  match o with
  | none => d
  | some v => if v.isEmpty then d else String.mk v

/-- JS `x || null` for an extracted optional string. -/
def jsOrNullLC : Option (List Char) → Option String
  | none => none
  | some v => if v.isEmpty then none else some (String.mk v)

/-- The `cookies` part of the bundle (keys `crmid`, `k_region`,
`__cf_bm`, `all_cookies`; `cf_bm` here models the `__cf_bm` key). -/
structure CookiesOut where
  crmid : Option String
  k_region : Option String
  cf_bm : Option String
  all_cookies : List Cookie
deriving DecidableEq

/-- The `headers` part of the bundle; field names model the JS keys
`Content-Type`, `X-COMPANY-ID`, `X-CSRF-Token`, `User-Agent`,
`Referer`, `Origin`. -/
structure HeadersOut where
  contentType : String
  xCompanyId : String
  xCsrfToken : Option String
  userAgent : String
  referer : String
  origin : String
deriving DecidableEq

/-- The `endpoints` part of the bundle. -/
structure EndpointsOut where
  base_url : String
  login_url : String
  data_endpoint : String
  chart_endpoint : String
deriving DecidableEq

/-- The `session_info` part of the bundle. -/
structure SessionInfo where
  timestamp : String
  username : String
  company_id : String
  session_timeout_minutes : Nat
deriving DecidableEq

/-- The `authVariables` response object: the AuthBundle. -/
structure AuthVariables where
  cookies : CookiesOut
  headers : HeadersOut
  endpoints : EndpointsOut
  session_info : SessionInfo
deriving DecidableEq

/-- The `BASE` constant. -/
def BASE : String := "https://crm.checkoutchamp.com"

/-- The `LOGIN_URL` constant. -/
def LOGIN_URL : String := BASE ++ "/"

/-- The `DASHBOARD_URL_PART` constant. -/
def DASHBOARD_URL_PART : String := "/dashboard"

/-- The `DATA_ENDPOINT` constant. -/
def DATA_ENDPOINT : String := BASE ++ "/reports/order-details/getTable.ajax.php"

/-- The fallback-navigation target `BASE + \x27/dashboard/\x27`. -/
def DASHBOARD_URL : String := BASE ++ "/dashboard/"

/-- The fixed user-agent string used at launch and in the headers. -/
def USER_AGENT : String :=
  "Mozilla/5.0 (Windows NT 10.0; Win64; x64) AppleWebKit/537.36 (KHTML, like Gecko) Chrome/115.0.0.0 Safari/537.36"

/-- Bundle assembly (source lines 131-158): pure construction of the
`authVariables` object from the cookie jar, the extracted values, the
username and the current ISO timestamp. -/
def buildAuthVariables (user : String) (cookies : List Cookie) (authData : AuthData)
    (nowIso : String) : AuthVariables :=
  { cookies :=
      { crmid := jsOrNullStr ((cookies.find? (fun c => c.name == "crmid")).map Cookie.value)
        k_region := jsOrNullStr ((cookies.find? (fun c => c.name == "k_region")).map Cookie.value)
        cf_bm := jsOrNullStr ((cookies.find? (fun c => c.name == "__cf_bm")).map Cookie.value)
        all_cookies := cookies }
    headers :=
      { contentType := "application/x-www-form-urlencoded"
        xCompanyId := jsOrDefaultLC authData.companyId ("4623")
        xCsrfToken := jsOrNullLC authData.csrf
        userAgent := USER_AGENT
        referer := "https://crm.checkoutchamp.com/reports/order-details/"
        origin := "https://crm.checkoutchamp.com" }
    endpoints :=
      { base_url := BASE
        login_url := LOGIN_URL
        data_endpoint := DATA_ENDPOINT
        chart_endpoint := BASE ++ "/reports/order-details/getChart.ajax.php" }
    session_info :=
      { timestamp := nowIso
        username := user
        company_id := jsOrDefaultLC authData.companyId ("4623")
        session_timeout_minutes := 240 } }

/- ## Harvest pipeline model (source lines 41-166)

The Playwright browser is abstracted as an `Env` record fixing the
outcome of every browser interaction of one run: whether each fallible
step succeeds, what `page.url()` returns at each of the two observation
points, whether the `body >> text=reports` query finds an element at
each point, and the cookie jar and inline-script texts of the confirmed
page.  The pipeline becomes a pure function returning the JS
result (`Except`) together with the ordered trace of browser events,
from which resource acquisition/release counts can be read off. -/

/-- JS falsiness of a possibly-undefined environment variable. -/
def credsFalsy : Option String → Bool
  | none => true
  | some s => s.isEmpty

/-- Fixed outcomes of the browser interactions of one run. -/
structure Env where
  envUser : Option String
  envPass : Option String
  gotoLoginOk : Bool
  fillUserOk : Bool
  fillPassOk : Bool
  clickOk : Bool
  submitNavOk : Bool
  urlAfterSubmit : String
  reportsAfterSubmit : Bool
  urlAfterFallback : String
  reportsAfterFallback : Bool
  cookiesOk : Bool
  evaluateOk : Bool
  cookies : List Cookie
  scripts : List (List Char)
  nowIso : String

/-- Browser events of one run, in order, with the timeout constants the
source passes to each call. -/
inductive HEvent where
  | launch
  | gotoNav (url : String) (timeoutMs : Nat)
  | fill (field : String) (timeoutMs : Nat)
  | submitNavWait (timeoutMs : Nat)
  | click
  | settle (ms : Nat)
  | fallbackNav (url : String) (timeoutMs : Nat)
  | close
deriving DecidableEq

/-- Errors the pipeline can throw.  `missingCredentials` and
`loginFailed` carry the exact messages of the `new Error` calls in the
source; the other messages stand for the Playwright-generated text of
the corresponding rejection. -/
inductive HError where
  | missingCredentials
  | navigationFailed
  | fillFailed (field : String)
  | clickFailed
  | cookiesFailed
  | evaluateFailed
  | loginFailed
deriving DecidableEq

/-- The `error.message` of each thrown error. -/
def HError.message : HError → String
  | .missingCredentials => "Missing CHECKOUTCHAMP_USER or CHECKOUTCHAMP_PASS environment variables"
  | .navigationFailed => "page.goto: navigation failed"
  | .fillFailed field => "page.fill failed: " ++ field
  | .clickFailed => "page.click failed"
  | .cookiesFailed => "context.cookies failed"
  | .evaluateFailed => "page.evaluate failed"
  | .loginFailed => "Login failed - could not reach dashboard"

/-- The first login check (source line 84): current URL contains the
dashboard path segment, or the page has an element with text `reports`. -/
def submitConfirmed (env : Env) : Bool :=
  strIncludes env.urlAfterSubmit DASHBOARD_URL_PART || env.reportsAfterSubmit

/-- The re-check after the fallback navigation (source line 89). -/
def fallbackConfirmed (env : Env) : Bool :=
  strIncludes env.urlAfterFallback DASHBOARD_URL_PART || env.reportsAfterFallback

/-- Events up to and including the submit race: launch, initial goto
(30s), the two fills (5s each), the tolerated navigation wait (20s) and
the click. -/
def submitEvents : List HEvent :=
  [HEvent.launch, HEvent.gotoNav LOGIN_URL 30000, HEvent.fill ("userName") 5000,
   HEvent.fill ("password") 5000, HEvent.submitNavWait 20000, HEvent.click]

/-- Submit events followed by the fixed 2s settle delay
(`page.waitForTimeout(2000)`). -/
def preVerifyEvents : List HEvent := submitEvents ++ [HEvent.settle 2000]

/-- Steps 4-6 after confirmed login: read the cookie jar, evaluate the
in-page extraction, close the browser, build the bundle.  `browser.close()`
precedes bundle construction (source line 128); bundle construction is a
JS object literal and cannot throw. -/
def finishHarvest (env : Env) (evs : List HEvent) :
    Except HError AuthVariables × List HEvent :=
  if env.cookiesOk = false then
    (Except.error HError.cookiesFailed, evs ++ [HEvent.close])
  else if env.evaluateOk = false then
    (Except.error HError.evaluateFailed, evs ++ [HEvent.close])
  else
    (Except.ok
        (buildAuthVariables (env.envUser.getD "") env.cookies
          (extractAuthData env.scripts) env.nowIso),
      evs ++ [HEvent.close])

/-- The whole `getCheckoutChampAuth` pipeline.  The credentials check
precedes `chromium.launch`; every failure inside the `try` is followed
by `browser.close()` and rethrown.  The `page.waitForNavigation(...)
.catch(() => null)` of the submit race converts a navigation failure to
`null`, so `submitNavOk` never influences the outcome — only the
`page.click` rejection can escape the `Promise.all`. -/
def runHarvest (env : Env) : Except HError AuthVariables × List HEvent :=
  if credsFalsy env.envUser || credsFalsy env.envPass then
    (Except.error HError.missingCredentials, [])
  else if env.gotoLoginOk = false then
    (Except.error HError.navigationFailed,
      [HEvent.launch, HEvent.gotoNav LOGIN_URL 30000, HEvent.close])
  else if env.fillUserOk = false then
    (Except.error (HError.fillFailed ("userName")),
      [HEvent.launch, HEvent.gotoNav LOGIN_URL 30000, HEvent.fill ("userName") 5000,
       HEvent.close])
  else if env.fillPassOk = false then
    (Except.error (HError.fillFailed ("password")),
      [HEvent.launch, HEvent.gotoNav LOGIN_URL 30000, HEvent.fill ("userName") 5000,
       HEvent.fill ("password") 5000, HEvent.close])
  else if env.clickOk = false then
    (Except.error HError.clickFailed, submitEvents ++ [HEvent.close])
  else if submitConfirmed env then
    finishHarvest env preVerifyEvents
  else if fallbackConfirmed env then
    finishHarvest env (preVerifyEvents ++ [HEvent.fallbackNav DASHBOARD_URL 20000])
  else
    (Except.error HError.loginFailed,
      preVerifyEvents ++ [HEvent.fallbackNav DASHBOARD_URL 20000, HEvent.close])

/-- The harvest reaches the login-verification step: credentials are
present and the initial navigation, both fills and the click succeed. -/
def reachesVerification (env : Env) : Bool :=
  !(credsFalsy env.envUser || credsFalsy env.envPass) &&
  env.gotoLoginOk && env.fillUserOk && env.fillPassOk && env.clickOk

/-- Recognizer for the browser-release event. -/
def isClose : HEvent → Bool
  | .close => true
  | _ => false

/-- Recognizer for the fallback-navigation event. -/
def isFallbackNav : HEvent → Bool
  | .fallbackNav _ _ => true
  | _ => false

/-- Number of browser-release invocations in a trace. -/
def closeCount (t : List HEvent) : Nat := t.countP isClose

/-- Number of fallback navigations in a trace. -/
def fallbackCount (t : List HEvent) : Nat := t.countP isFallbackNav

/- ## HTTP endpoint model (source lines 20-38 and 169-181) -/

/-- Outcome of the `verifyApiToken` middleware. -/
inductive TokenCheck where
  | unauthorized
  | forbidden
  | proceed
deriving DecidableEq

/-- Middleware `verifyApiToken`: the request header value is `undefined` or a
string; `!token` catches both absence and the empty string; `token !==
API_TOKEN` compares a string against the possibly-undefined configured
token. -/
def verifyApiToken (apiToken : Option String) (headerToken : Option String) : TokenCheck :=
  match headerToken with
  | none => TokenCheck.unauthorized
  | some t =>
    if t.isEmpty then TokenCheck.unauthorized
    else if some t = apiToken then TokenCheck.proceed
    else TokenCheck.forbidden

/-- JSON body of a response: an error object or the serialized bundle. -/
inductive ResponseBody where
  | errorBody (error : String) (message : String)
  | bundleBody (bundle : AuthVariables)
deriving DecidableEq

/-- An HTTP response of the `/api/auth` handler. -/
structure HttpResponse where
  status : Nat
  body : ResponseBody
deriving DecidableEq

/-- The `POST /api/auth` handler: middleware first, then one harvest;
a thrown harvest error is reported as 500 with its message. -/
def handleAuthPost (apiToken : Option String) (headerToken : Option String) (env : Env) :
    HttpResponse :=
  match verifyApiToken apiToken headerToken with
  | TokenCheck.unauthorized =>
    { status := 401, body := ResponseBody.errorBody ("Unauthorized") ("Missing X-API-Token header") }
  | TokenCheck.forbidden =>
    { status := 403, body := ResponseBody.errorBody ("Forbidden") ("Invalid API token") }
  | TokenCheck.proceed =>
    match (runHarvest env).1 with
    | Except.error e =>
      { status := 500, body := ResponseBody.errorBody ("Internal Server Error") e.message }
    | Except.ok bundle =>
      { status := 200, body := ResponseBody.bundleBody bundle }

/- ## Concrete runs used by the witnesses -/

/-- A run in which every browser interaction succeeds and the post-submit
URL already contains the dashboard segment. -/
def envHappy : Env :=
  { envUser := some ("u"), envPass := some ("p"), gotoLoginOk := true, fillUserOk := true,
    fillPassOk := true, clickOk := true, submitNavOk := true,
    urlAfterSubmit := "/dashboard", reportsAfterSubmit := false,
    urlAfterFallback := "login", reportsAfterFallback := false,
    cookiesOk := true, evaluateOk := true, cookies := [], scripts := [],
    nowIso := "2026-01-01T00:00:00.000Z" }

/-- A run reaching verification whose two login signals both stay false
at both observation points. -/
def envUnconfirmed : Env := { envHappy with urlAfterSubmit := "login" }

/-- A run with the username environment variable unset. -/
def envNoCreds : Env := { envHappy with envUser := none }

/-- A run whose mandatory initial page load fails. -/
def envNoGoto : Env := { envHappy with gotoLoginOk := false }

/-- Script text not matching the object-construction signature. -/
def unrelatedScript : List Char := ("var x = 1;").toList

/-- Script text with an object-construction block defining both keys. -/
def adomScriptW : List Char :=
  ("aDom.construct(\x7b csrfToken: \x27abc\x27, currentCompanyId: \x2777\x27 \x7d)").toList

/- ## Sanity checks of the embedding on concrete inputs -/

example :
    adomMatch (("var x = 1; aDom.construct(\x7bcsrfToken: \x27abc\x27\x7d);").toList) =
      some (("csrfToken: \x27abc\x27").toList) := by decide

example : adomMatch (("var x = 1; console.log(2);").toList) = none := by decide

example : csrfCapture (("csrfToken: \x27abc\x27, currentCompanyId: \x2777\x27").toList) =
    some (("abc").toList) := by decide

example : companyCapture (("csrfToken: \x27abc\x27, currentCompanyId: \x2777\x27").toList) =
    some (("77").toList) := by decide

example : companyCapture (("currentCompanyId: \x27x9\x27").toList) = none := by decide

example :
    extractAuthData
      [("var x = 1;").toList, adomScriptW,
       ("aDom.construct(\x7b csrfToken: \x27zzz\x27 \x7d)").toList] =
      { csrf := some (("abc").toList), companyId := some (("77").toList) } := by decide

/- ## Helper lemmas -/

theorem finishHarvest_snd (env : Env) (evs : List HEvent) :
    (finishHarvest env evs).2 = evs ++ [HEvent.close] := by
  unfold finishHarvest
  by_cases h1 : env.cookiesOk = false <;> by_cases h2 : env.evaluateOk = false <;>
    simp [h1, h2]

theorem finishHarvest_fst_ne_login (env : Env) (evs : List HEvent) :
    (finishHarvest env evs).1 ≠ Except.error HError.loginFailed := by
  unfold finishHarvest
  by_cases h1 : env.cookiesOk = false <;> by_cases h2 : env.evaluateOk = false <;>
    simp [h1, h2]

theorem closeCount_append (a b : List HEvent) :
    closeCount (a ++ b) = closeCount a + closeCount b := List.countP_append _ _ _

theorem runHarvest_trace_shape (env : Env)
    (h : (credsFalsy env.envUser || credsFalsy env.envPass) = false) :
    ∃ evs, (runHarvest env).2 = evs ++ [HEvent.close] ∧ closeCount evs = 0 := by
  unfold runHarvest
  by_cases h1 : env.gotoLoginOk = false
  · exact ⟨[HEvent.launch, HEvent.gotoNav LOGIN_URL 30000], by simp [h, h1], by decide⟩
  by_cases h2 : env.fillUserOk = false
  · exact ⟨[HEvent.launch, HEvent.gotoNav LOGIN_URL 30000, HEvent.fill ("userName") 5000],
      by simp [h, h1, h2], by decide⟩
  by_cases h3 : env.fillPassOk = false
  · exact ⟨[HEvent.launch, HEvent.gotoNav LOGIN_URL 30000, HEvent.fill ("userName") 5000,
      HEvent.fill ("password") 5000], by simp [h, h1, h2, h3], by decide⟩
  by_cases h4 : env.clickOk = false
  · exact ⟨submitEvents, by simp [h, h1, h2, h3, h4], by decide⟩
  by_cases h5 : submitConfirmed env
  · exact ⟨preVerifyEvents, by simp [h, h1, h2, h3, h4, h5, finishHarvest_snd], by decide⟩
  by_cases h6 : fallbackConfirmed env
  · exact ⟨preVerifyEvents ++ [HEvent.fallbackNav DASHBOARD_URL 20000],
      by simp [h, h1, h2, h3, h4, h5, h6, finishHarvest_snd],
      by rw [closeCount_append]; decide⟩
  · exact ⟨preVerifyEvents ++ [HEvent.fallbackNav DASHBOARD_URL 20000],
      by simp [h, h1, h2, h3, h4, h5, h6, List.append_assoc],
      by rw [closeCount_append]; decide⟩

/- ## Claim theorems -/

/-- C7: if either required credential is absent, the harvest fails with
the configuration error before any browser resource is acquired: the
result is the missing-credentials error, the event trace is empty, and
in particular no launch event occurs. -/
theorem spec_c7_missing_credentials (env : Env)
    (h : env.envUser = none ∨ env.envPass = none) :
    (runHarvest env).1 = Except.error HError.missingCredentials ∧
    (runHarvest env).2 = [] ∧ HEvent.launch ∉ (runHarvest env).2 := by
  have hf : (credsFalsy env.envUser || credsFalsy env.envPass) = true := by
    rcases h with h | h <;> simp [h, credsFalsy]
  simp [runHarvest, hf]

theorem spec_c7_missing_credentials_witness :
    (runHarvest envNoCreds).1 = Except.error HError.missingCredentials ∧
    (runHarvest envNoCreds).2 = [] ∧ HEvent.launch ∉ (runHarvest envNoCreds).2 :=
  spec_c7_missing_credentials envNoCreds (Or.inl rfl)

/-- C2: in every run that acquires the browser (a launch event occurs),
the browser-release routine runs exactly once, and it is the last
browser event before control returns. -/
theorem spec_c2_release_once (env : Env)
    (h : HEvent.launch ∈ (runHarvest env).2) :
    closeCount (runHarvest env).2 = 1 ∧
    (runHarvest env).2.getLast? = some HEvent.close := by
  by_cases hc : (credsFalsy env.envUser || credsFalsy env.envPass) = true
  · simp [runHarvest, hc] at h
  · rw [Bool.not_eq_true] at hc
    obtain ⟨evs, hev, hcount⟩ := runHarvest_trace_shape env hc
    rw [hev]
    constructor
    · rw [closeCount_append, hcount]; rfl
    · exact List.getLast?_concat _

theorem spec_c2_release_once_witness :
    closeCount (runHarvest envHappy).2 = 1 ∧
    (runHarvest envHappy).2.getLast? = some HEvent.close :=
  spec_c2_release_once envHappy (by decide)

/-- C8: navigation-failure tolerance is step-dependent.  The outcome of
the tolerated navigation wait of the submit race never influences the
run (the `catch` turns its failure into `null`); when the run reaches
verification the settle delay is executed, so the harvest continued past
the submit step; and a failure of the mandatory initial page load is
fatal: the harvest aborts with the navigation error after releasing the
browser exactly once. -/
theorem spec_c8_nav_tolerance (env : Env) :
    runHarvest { env with submitNavOk := true } =
      runHarvest { env with submitNavOk := false } ∧
    (reachesVerification env = true → HEvent.settle 2000 ∈ (runHarvest env).2) ∧
    ((credsFalsy env.envUser || credsFalsy env.envPass) = false → env.gotoLoginOk = false →
      (runHarvest env).1 = Except.error HError.navigationFailed ∧
      closeCount (runHarvest env).2 = 1) := by
  refine ⟨?_, ?_, ?_⟩
  · rfl
  · intro h
    simp only [reachesVerification, Bool.and_eq_true, Bool.not_eq_true',
      Bool.or_eq_false_iff] at h
    obtain ⟨⟨⟨⟨⟨hu, hp⟩, h1⟩, h2⟩, h3⟩, h4⟩ := h
    have hc : (credsFalsy env.envUser || credsFalsy env.envPass) = false := by
      simp [hu, hp]
    by_cases h5 : submitConfirmed env
    · simp [runHarvest, hc, h1, h2, h3, h4, h5, finishHarvest_snd, preVerifyEvents,
        submitEvents]
    · by_cases h6 : fallbackConfirmed env <;>
        simp [runHarvest, hc, h1, h2, h3, h4, h5, h6, finishHarvest_snd, preVerifyEvents,
          submitEvents]
  · intro hc hg
    simp [runHarvest, hc, hg]
    decide

theorem spec_c8_nav_tolerance_witness :
    (runHarvest envNoGoto).1 = Except.error HError.navigationFailed ∧
    closeCount (runHarvest envNoGoto).2 = 1 :=
  (spec_c8_nav_tolerance envNoGoto).2.2 (by decide) rfl

/-- C3: a bundle is returned only from a positively confirmed session:
an `ok` result forces one of the two login signals to have held, and on
every run reaching verification with both signals false at both
observation points the harvest ends in the login-failed error. -/
theorem spec_c3_bundle_requires_confirm (env : Env) :
    (∀ b, (runHarvest env).1 = Except.ok b →
      (submitConfirmed env || fallbackConfirmed env) = true) ∧
    (reachesVerification env = true → submitConfirmed env = false →
      fallbackConfirmed env = false →
      (runHarvest env).1 = Except.error HError.loginFailed) := by
  constructor
  · intro b hb
    by_cases h5 : submitConfirmed env
    · simp [h5]
    by_cases h6 : fallbackConfirmed env
    · simp [h6]
    exfalso
    rw [Bool.not_eq_true] at h5 h6
    by_cases hc : (credsFalsy env.envUser || credsFalsy env.envPass) = true
    · simp [runHarvest, hc] at hb
    rw [Bool.not_eq_true] at hc
    by_cases h1 : env.gotoLoginOk = false
    · simp [runHarvest, hc, h1] at hb
    by_cases h2 : env.fillUserOk = false
    · simp [runHarvest, hc, h1, h2] at hb
    by_cases h3 : env.fillPassOk = false
    · simp [runHarvest, hc, h1, h2, h3] at hb
    by_cases h4 : env.clickOk = false
    · simp [runHarvest, hc, h1, h2, h3, h4] at hb
    simp [runHarvest, hc, h1, h2, h3, h4, h5, h6] at hb
  · intro h hsc hfc
    simp only [reachesVerification, Bool.and_eq_true, Bool.not_eq_true',
      Bool.or_eq_false_iff] at h
    obtain ⟨⟨⟨⟨⟨hu, hp⟩, h1⟩, h2⟩, h3⟩, h4⟩ := h
    have hc : (credsFalsy env.envUser || credsFalsy env.envPass) = false := by
      simp [hu, hp]
    simp [runHarvest, hc, h1, h2, h3, h4, hsc, hfc]

theorem spec_c3_bundle_requires_confirm_witness :
    (runHarvest envUnconfirmed).1 = Except.error HError.loginFailed :=
  (spec_c3_bundle_requires_confirm envUnconfirmed).2 (by decide) (by decide) (by decide)

/-- C1: on every run reaching verification, the harvest ends in the
fatal login-failed error exactly when both signals (URL contains the
dashboard segment, DOM has the `reports` text) are false at the
post-submit check and again after the fallback; the fixed 2s settle
delay runs before the check; the fallback navigation to the dashboard
URL with the 20s timeout is performed exactly once when the first check
fails and never otherwise. -/
theorem spec_c1_login_verifier (env : Env) (h : reachesVerification env = true) :
    ((runHarvest env).1 = Except.error HError.loginFailed ↔
      (submitConfirmed env = false ∧ fallbackConfirmed env = false)) ∧
    HEvent.settle 2000 ∈ (runHarvest env).2 ∧
    fallbackCount (runHarvest env).2 = (if submitConfirmed env = true then 0 else 1) ∧
    (submitConfirmed env = false →
      HEvent.fallbackNav DASHBOARD_URL 20000 ∈ (runHarvest env).2) := by
  simp only [reachesVerification, Bool.and_eq_true, Bool.not_eq_true',
    Bool.or_eq_false_iff] at h
  obtain ⟨⟨⟨⟨⟨hu, hp⟩, h1⟩, h2⟩, h3⟩, h4⟩ := h
  have hc : (credsFalsy env.envUser || credsFalsy env.envPass) = false := by
    simp [hu, hp]
  by_cases h5 : submitConfirmed env
  · have hr : runHarvest env = finishHarvest env preVerifyEvents := by
      simp [runHarvest, hc, h1, h2, h3, h4, h5]
    rw [hr, finishHarvest_snd]
    refine ⟨?_, by decide, ?_, ?_⟩
    · simp [finishHarvest_fst_ne_login, h5]
    · simp [h5]
      decide
    · intro hs5
      simp [hs5] at h5
  · rw [Bool.not_eq_true] at h5
    by_cases h6 : fallbackConfirmed env
    · have hr : runHarvest env =
          finishHarvest env (preVerifyEvents ++ [HEvent.fallbackNav DASHBOARD_URL 20000]) := by
        simp [runHarvest, hc, h1, h2, h3, h4, h5, h6]
      rw [hr, finishHarvest_snd]
      refine ⟨?_, by decide, ?_, ?_⟩
      · simp [finishHarvest_fst_ne_login, h6]
      · simp [h5]
        decide
      · intro _
        decide
    · rw [Bool.not_eq_true] at h6
      have hr : runHarvest env =
          (Except.error HError.loginFailed,
            preVerifyEvents ++ [HEvent.fallbackNav DASHBOARD_URL 20000, HEvent.close]) := by
        simp [runHarvest, hc, h1, h2, h3, h4, h5, h6]
      rw [hr]
      refine ⟨by simp [h5, h6], by decide, ?_, ?_⟩
      · simp [h5]
        decide
      · intro _
        decide

theorem spec_c1_login_verifier_witness :
    ((runHarvest envUnconfirmed).1 = Except.error HError.loginFailed ↔
      (submitConfirmed envUnconfirmed = false ∧ fallbackConfirmed envUnconfirmed = false)) ∧
    HEvent.settle 2000 ∈ (runHarvest envUnconfirmed).2 ∧
    fallbackCount (runHarvest envUnconfirmed).2 =
      (if submitConfirmed envUnconfirmed = true then 0 else 1) ∧
    (submitConfirmed envUnconfirmed = false →
      HEvent.fallbackNav DASHBOARD_URL 20000 ∈ (runHarvest envUnconfirmed).2) :=
  spec_c1_login_verifier envUnconfirmed (by decide)

/-- C4: assembler default asymmetry.  A falsy (absent or empty)
extracted company id makes the fixed fallback constant appear both in
the `X-COMPANY-ID` header and in `session_info.company_id`; a falsy
extracted CSRF token makes the `X-CSRF-Token` header `null`, never the
fallback constant; and a truthy extracted value is passed through
verbatim in both positions. -/
theorem spec_c4_default_asymmetry (user : String) (cookies : List Cookie) (ad : AuthData)
    (nowIso : String) :
    (jsFalsyOpt ad.companyId = true →
      (buildAuthVariables user cookies ad nowIso).headers.xCompanyId = "4623" ∧
      (buildAuthVariables user cookies ad nowIso).session_info.company_id = "4623") ∧
    (jsFalsyOpt ad.csrf = true →
      (buildAuthVariables user cookies ad nowIso).headers.xCsrfToken = none) ∧
    (∀ v, ad.companyId = some v → v.isEmpty = false →
      (buildAuthVariables user cookies ad nowIso).headers.xCompanyId = String.mk v ∧
      (buildAuthVariables user cookies ad nowIso).session_info.company_id = String.mk v) ∧
    (∀ v, ad.csrf = some v → v.isEmpty = false →
      (buildAuthVariables user cookies ad nowIso).headers.xCsrfToken = some (String.mk v)) := by
  refine ⟨?_, ?_, ?_, ?_⟩
  · intro h
    cases hcid : ad.companyId with
    | none => simp [buildAuthVariables, jsOrDefaultLC, hcid]
    | some v =>
      rw [hcid] at h
      simp only [jsFalsyOpt] at h
      simp [buildAuthVariables, jsOrDefaultLC, hcid, h]
  · intro h
    cases hcs : ad.csrf with
    | none => simp [buildAuthVariables, jsOrNullLC, hcs]
    | some v =>
      rw [hcs] at h
      simp only [jsFalsyOpt] at h
      simp [buildAuthVariables, jsOrNullLC, hcs, h]
  · intro v hv hne
    simp [buildAuthVariables, jsOrDefaultLC, hv, hne]
  · intro v hv hne
    simp [buildAuthVariables, jsOrNullLC, hv, hne]

theorem spec_c4_default_asymmetry_witness :
    (buildAuthVariables ("u") [] { csrf := none, companyId := none } ("t")).headers.xCompanyId
        = "4623" ∧
    (buildAuthVariables ("u") [] { csrf := none, companyId := none } ("t")).session_info.company_id
        = "4623" ∧
    (buildAuthVariables ("u") [] { csrf := none, companyId := none } ("t")).headers.xCsrfToken
        = none :=
  ⟨((spec_c4_default_asymmetry ("u") [] { csrf := none, companyId := none } ("t")).1 rfl).1,
   ((spec_c4_default_asymmetry ("u") [] { csrf := none, companyId := none } ("t")).1 rfl).2,
   (spec_c4_default_asymmetry ("u") [] { csrf := none, companyId := none } ("t")).2.1 rfl⟩

/-- C9: the `/api/auth` contract.  A missing header gives 401
Unauthorized; a present non-empty token different from the configured
one gives 403 Forbidden; a matching token with a failing harvest gives
500 with the error message in the body; a matching token with a
successful harvest gives 200 with the bundle as the body. -/
theorem spec_c9_endpoint_contract (apiToken headerToken : Option String) (env : Env) :
    (headerToken = none →
      handleAuthPost apiToken headerToken env =
        { status := 401,
          body := ResponseBody.errorBody ("Unauthorized") ("Missing X-API-Token header") }) ∧
    (∀ t, headerToken = some t → t.isEmpty = false → some t ≠ apiToken →
      handleAuthPost apiToken headerToken env =
        { status := 403,
          body := ResponseBody.errorBody ("Forbidden") ("Invalid API token") }) ∧
    (∀ t e, headerToken = some t → t.isEmpty = false → some t = apiToken →
      (runHarvest env).1 = Except.error e →
      handleAuthPost apiToken headerToken env =
        { status := 500,
          body := ResponseBody.errorBody ("Internal Server Error") (HError.message e) }) ∧
    (∀ t b, headerToken = some t → t.isEmpty = false → some t = apiToken →
      (runHarvest env).1 = Except.ok b →
      handleAuthPost apiToken headerToken env =
        { status := 200, body := ResponseBody.bundleBody b }) := by
  refine ⟨?_, ?_, ?_, ?_⟩
  · intro h
    simp [handleAuthPost, verifyApiToken, h]
  · intro t h hne hmis
    simp [handleAuthPost, verifyApiToken, h, hne, hmis]
  · intro t e h hne hmat hrun
    simp [handleAuthPost, verifyApiToken, h, hne, ← hmat, hrun]
  · intro t b h hne hmat hrun
    simp [handleAuthPost, verifyApiToken, h, hne, ← hmat, hrun]

theorem spec_c9_endpoint_contract_witness :
    handleAuthPost (some ("s")) none envHappy =
      { status := 401,
        body := ResponseBody.errorBody ("Unauthorized") ("Missing X-API-Token header") } ∧
    handleAuthPost (some ("s")) (some ("x")) envHappy =
      { status := 403,
        body := ResponseBody.errorBody ("Forbidden") ("Invalid API token") } ∧
    handleAuthPost (some ("s")) (some ("s")) envNoCreds =
      { status := 500,
        body := ResponseBody.errorBody ("Internal Server Error")
          (HError.message HError.missingCredentials) } ∧
    handleAuthPost (some ("s")) (some ("s")) envHappy =
      { status := 200,
        body := ResponseBody.bundleBody
          (buildAuthVariables ("u") [] (extractAuthData []) ("2026-01-01T00:00:00.000Z")) } :=
  ⟨(spec_c9_endpoint_contract (some ("s")) none envHappy).1 rfl,
   (spec_c9_endpoint_contract (some ("s")) (some ("x")) envHappy).2.1 ("x") rfl (by decide)
     (by decide),
   (spec_c9_endpoint_contract (some ("s")) (some ("s")) envNoCreds).2.2.1 ("s")
     HError.missingCredentials rfl (by decide) rfl rfl,
   (spec_c9_endpoint_contract (some ("s")) (some ("s")) envHappy).2.2.2 ("s")
     (buildAuthVariables ("u") [] (extractAuthData []) ("2026-01-01T00:00:00.000Z"))
     rfl (by decide) rfl rfl⟩

/-- C10 counterexample: with the configured token unset, a request whose
`X-API-Token` header is present with an empty value is rejected with
401, not with 403 as the claim states for every present header. -/
theorem spec_c10_counterexample :
    (handleAuthPost none (some ("")) envHappy).status = 401 ∧
    ¬((handleAuthPost none (some ("")) envHappy).status = 403) := by decide

/-- C10 (amended): if the configured API token is unset, no request ever
succeeds: every request is rejected with 401 or 403; a present header
with a non-empty value gets 403; an absent header, or one present with
an empty value, gets 401; and the response body is never a bundle. -/
theorem spec_c10_no_fail_open (headerToken : Option String) (env : Env) :
    ((handleAuthPost none headerToken env).status = 401 ∨
      (handleAuthPost none headerToken env).status = 403) ∧
    (∀ t, headerToken = some t → t.isEmpty = false →
      (handleAuthPost none headerToken env).status = 403) ∧
    (headerToken = none ∨ headerToken = some ("") →
      (handleAuthPost none headerToken env).status = 401) ∧
    (∀ b, (handleAuthPost none headerToken env).body ≠ ResponseBody.bundleBody b) := by
  refine ⟨?_, ?_, ?_, ?_⟩
  · cases headerToken with
    | none => simp [handleAuthPost, verifyApiToken]
    | some t =>
      by_cases ht : t.isEmpty <;> simp [handleAuthPost, verifyApiToken, ht]
  · intro t h hne
    simp [handleAuthPost, verifyApiToken, h, hne]
  · intro h
    rcases h with h | h
    · simp [handleAuthPost, verifyApiToken, h]
    · subst h
      rfl
  · intro b
    cases headerToken with
    | none => simp [handleAuthPost, verifyApiToken]
    | some t =>
      by_cases ht : t.isEmpty <;> simp [handleAuthPost, verifyApiToken, ht]

theorem spec_c10_no_fail_open_witness :
    (handleAuthPost none (some ("a")) envHappy).status = 403 ∧
    (handleAuthPost none none envHappy).status = 401 :=
  ⟨(spec_c10_no_fail_open (some ("a")) envHappy).2.1 ("a") rfl (by decide),
   (spec_c10_no_fail_open none envHappy).2.2.1 (Or.inl rfl)⟩

/- ## Lemmas for the extraction claims -/

theorem guardNonEmpty_isEmpty_false (w v : List Char) (h : guardNonEmpty w = some v) :
    v.isEmpty = false := by
  unfold guardNonEmpty at h
  split at h
  · exact absurd h (by simp)
  · cases h
    simp_all

theorem matchCsrfAt_isEmpty_false (l v : List Char) (h : matchCsrfAt l = some v) :
    v.isEmpty = false := by
  unfold matchCsrfAt at h
  repeat' split at h
  all_goals first
    | exact absurd h (by simp)
    | exact guardNonEmpty_isEmpty_false _ _ h

theorem matchCompanyAt_isEmpty_false (l v : List Char) (h : matchCompanyAt l = some v) :
    v.isEmpty = false := by
  unfold matchCompanyAt at h
  repeat' split at h
  all_goals first
    | exact absurd h (by simp)
    | exact guardNonEmpty_isEmpty_false _ _ h

theorem firstMatchAux_isEmpty_false (f : List Char → Option (List Char))
    (hf : ∀ l v, f l = some v → v.isEmpty = false) :
    ∀ l v, firstMatchAux f l = some v → v.isEmpty = false := by
  intro l
  induction l with
  | nil => intro v h; exact hf [] v h
  | cons c t ih =>
    intro v h
    simp only [firstMatchAux] at h
    cases hfc : f (c :: t) with
    | some w =>
      rw [hfc] at h
      simp only [] at h
      cases h
      exact hf _ _ hfc
    | none =>
      rw [hfc] at h
      exact ih v h

theorem csrfCapture_isEmpty_false (cfg v : List Char) (h : csrfCapture cfg = some v) :
    v.isEmpty = false :=
  firstMatchAux_isEmpty_false matchCsrfAt matchCsrfAt_isEmpty_false cfg v h

theorem companyCapture_isEmpty_false (cfg v : List Char) (h : companyCapture cfg = some v) :
    v.isEmpty = false :=
  firstMatchAux_isEmpty_false matchCompanyAt matchCompanyAt_isEmpty_false cfg v h

theorem jsAssignIfFalsy_frozen (c f : Option (List Char)) (h : jsFalsyOpt c = false) :
    jsAssignIfFalsy c f = c := by
  cases f <;> simp [jsAssignIfFalsy, h]

theorem jsAssignIfFalsy_none (f : Option (List Char)) : jsAssignIfFalsy none f = f := by
  cases f <;> simp [jsAssignIfFalsy, jsFalsyOpt]

theorem extractLoop_csrf_frozen (scripts : List (List Char)) :
    ∀ c k, jsFalsyOpt c = false → (extractLoop scripts c k).csrf = c := by
  induction scripts with
  | nil => intro c k _; rfl
  | cons text rest ih =>
    intro c k h
    cases ha : adomMatch text with
    | none =>
      simp only [extractLoop, ha]
      exact ih c k h
    | some cfg =>
      simp only [extractLoop, ha, jsAssignIfFalsy_frozen c _ h]
      exact ih c _ h

theorem extractLoop_company_frozen (scripts : List (List Char)) :
    ∀ c k, jsFalsyOpt k = false → (extractLoop scripts c k).companyId = k := by
  induction scripts with
  | nil => intro c k _; rfl
  | cons text rest ih =>
    intro c k h
    cases ha : adomMatch text with
    | none =>
      simp only [extractLoop, ha]
      exact ih c k h
    | some cfg =>
      simp only [extractLoop, ha, jsAssignIfFalsy_frozen k _ h]
      exact ih _ k h

theorem extractLoop_csrf_start_none (scripts : List (List Char)) :
    ∀ k, (extractLoop scripts none k).csrf = firstCsrf scripts := by
  induction scripts with
  | nil => intro k; rfl
  | cons text rest ih =>
    intro k
    cases ha : adomMatch text with
    | none =>
      have hs : scriptCsrf text = none := by simp [scriptCsrf, ha]
      simp only [extractLoop, ha, firstCsrf, List.findSome?, hs]
      exact ih k
    | some cfg =>
      have hs : scriptCsrf text = csrfCapture cfg := by simp [scriptCsrf, ha]
      cases hcc : csrfCapture cfg with
      | none =>
        simp only [extractLoop, ha, firstCsrf, List.findSome?, hs, hcc,
          jsAssignIfFalsy_none]
        exact ih _
      | some v =>
        have hne : jsFalsyOpt (some v) = false := by
          simp only [jsFalsyOpt]
          exact csrfCapture_isEmpty_false cfg v hcc
        simp only [extractLoop, ha, firstCsrf, List.findSome?, hs, hcc,
          jsAssignIfFalsy_none]
        exact extractLoop_csrf_frozen rest (some v) _ hne

theorem extractLoop_company_start_none (scripts : List (List Char)) :
    ∀ c, (extractLoop scripts c none).companyId = firstCompany scripts := by
  induction scripts with
  | nil => intro c; rfl
  | cons text rest ih =>
    intro c
    cases ha : adomMatch text with
    | none =>
      have hs : scriptCompany text = none := by simp [scriptCompany, ha]
      simp only [extractLoop, ha, firstCompany, List.findSome?, hs]
      exact ih c
    | some cfg =>
      have hs : scriptCompany text = companyCapture cfg := by simp [scriptCompany, ha]
      cases hcc : companyCapture cfg with
      | none =>
        simp only [extractLoop, ha, firstCompany, List.findSome?, hs, hcc,
          jsAssignIfFalsy_none]
        exact ih _
      | some v =>
        have hne : jsFalsyOpt (some v) = false := by
          simp only [jsFalsyOpt]
          exact companyCapture_isEmpty_false cfg v hcc
        simp only [extractLoop, ha, firstCompany, List.findSome?, hs, hcc,
          jsAssignIfFalsy_none]
        exact extractLoop_company_frozen rest _ (some v) hne

/-- C5: first-match-wins and key independence.  The extracted csrf value
is the first one found over the scripts in scan order (the first
object-construction block whose argument text matches the csrf pattern),
and independently the extracted company id is the first one found for
its own pattern. -/
theorem spec_c5_first_match_wins (scripts : List (List Char)) :
    (extractAuthData scripts).csrf = firstCsrf scripts ∧
    (extractAuthData scripts).companyId = firstCompany scripts :=
  ⟨extractLoop_csrf_start_none scripts none, extractLoop_company_start_none scripts none⟩

theorem extractLoop_unrelated (t : List Char) (h : adomMatch t = none) :
    ∀ (l1 l2 : List (List Char)) (c k),
      extractLoop (l1 ++ t :: l2) c k = extractLoop (l1 ++ l2) c k := by
  intro l1
  induction l1 with
  | nil =>
    intro l2 c k
    simp only [List.nil_append, extractLoop, h]
  | cons a l1' ih =>
    intro l2 c k
    simp only [List.cons_append, extractLoop]
    cases ha : adomMatch a <;> simp only [ha] <;> exact ih l2 _ _

/-- C6: extraction is invariant under unrelated scripts and
deterministic.  Inserting a script whose text does not match the
object-construction signature anywhere in the list leaves the result
unchanged; moving such a script from the front to the back also leaves
it unchanged; and re-running extraction on the same page yields the same
result. -/
theorem spec_c6_unrelated_scripts (t : List Char) (l1 l2 : List (List Char))
    (h : adomMatch t = none) :
    extractAuthData (l1 ++ t :: l2) = extractAuthData (l1 ++ l2) ∧
    extractAuthData (t :: (l1 ++ l2)) = extractAuthData ((l1 ++ l2) ++ [t]) ∧
    extractAuthData (l1 ++ t :: l2) = extractAuthData (l1 ++ t :: l2) := by
  refine ⟨extractLoop_unrelated t h l1 l2 none none, ?_, rfl⟩
  have h1 : extractAuthData (t :: (l1 ++ l2)) = extractAuthData (l1 ++ l2) :=
    extractLoop_unrelated t h [] (l1 ++ l2) none none
  have h2 : extractAuthData ((l1 ++ l2) ++ [t]) = extractAuthData ((l1 ++ l2) ++ []) :=
    extractLoop_unrelated t h (l1 ++ l2) [] none none
  rw [h1, h2, List.append_nil]

theorem spec_c6_unrelated_scripts_witness :
    extractAuthData ([] ++ unrelatedScript :: [adomScriptW]) =
      extractAuthData ([] ++ [adomScriptW]) ∧
    extractAuthData (unrelatedScript :: ([] ++ [adomScriptW])) =
      extractAuthData (([] ++ [adomScriptW]) ++ [unrelatedScript]) ∧
    extractAuthData ([] ++ unrelatedScript :: [adomScriptW]) =
      extractAuthData ([] ++ unrelatedScript :: [adomScriptW]) :=
  spec_c6_unrelated_scripts unrelatedScript [] [adomScriptW] (by decide)
